import Mathlib

/-!
Verification development for the trekgo-backend trip-generation pipeline.

The JavaScript services of the repository are shallowly embedded as Lean
functions.  External network effects (the ORS routing service, the ORS
geocoder, the Groq text-generation service, the image service) are modelled
as oracle parameters: arbitrary functions supplied to the embedded code,
quantified over in the theorems.  JavaScript numbers are modelled as
rationals (`ℚ`); all claims under study are order/rounding properties that
are insensitive to the float/rational distinction, except where noted in
comments.  Fallible JavaScript code (`throw`) is modelled with
`Except JsError`.
-/

set_option maxRecDepth 4000
set_option linter.unusedVariables false

deriving instance DecidableEq for Except

/-- A thrown JavaScript error: its `message` and, for `AppError`, its
machine-readable `errorCode` (plain `Error`s have none). -/
structure JsError where
  message : String
  code : Option String
deriving DecidableEq, Repr

/-- A coordinate pair as used in ORS request arrays, stored `[lng, lat]`
like the source's two-element arrays. -/
structure Coord where
  lng : ℚ
  lat : ℚ
deriving DecidableEq, Repr

/-- A named point `{lat, lng, name}` of the data model. -/
structure Point where
  lat : ℚ
  lng : ℚ
  name : String
deriving DecidableEq, Repr

/-- Does the character list `s` start with the character list `pat`?
Auxiliary for the embedding of JavaScript `String.prototype.includes`. -/
def listStartsWith : List Char → List Char → Bool
  | _, [] => true
  | [], _ :: _ => false
  | c :: cs, p :: ps => c == p && listStartsWith cs ps

/-- Does the character list `s` contain the character list `pat` as a
contiguous run?  Auxiliary for JavaScript `String.prototype.includes`. -/
def listContains : List Char → List Char → Bool
  | [], pat => listStartsWith [] pat
  | c :: cs, pat => listStartsWith (c :: cs) pat || listContains cs pat

/-- Embedding of the JavaScript expression `s.includes(pat)` on strings. -/
def strIncludes (s pat : String) : Bool :=
  listContains s.data pat.data

/-- JavaScript `Math.abs` on the rational model of a JS number. -/
def jsMathAbs (x : ℚ) : ℚ := if x < 0 then -x else x

/-- Tolerance used by both `isSamePoint` implementations in the source
(`LLMService.isSamePoint` and `ConstraintService.isSamePoint`):
0.001 degrees, about 100 m. -/
def POINT_TOLERANCE : ℚ := 1 / 1000

/-- Embedding of `isSamePoint(a, b)`: both coordinate deltas strictly below
the tolerance.  `LLMService` and `ConstraintService` define the same check
(the latter adds a null guard that is type-level here). -/
def isSamePointB (a b : Point) : Bool :=
  decide (jsMathAbs (a.lat - b.lat) < POINT_TOLERANCE) &&
  decide (jsMathAbs (a.lng - b.lng) < POINT_TOLERANCE)

/-- Elevation summary `{ascent, descent}` of a processed ORS response. -/
structure Elevation where
  ascent : ℚ
  descent : ℚ
deriving DecidableEq, Repr

/-- Route geometry: the GeoJSON line-string coordinate list. -/
structure Geometry where
  coordinates : List Coord
deriving DecidableEq, Repr

/-- One flattened turn instruction of a processed ORS response. -/
structure Instruction where
  segment : ℕ
  step : ℕ
  instruction : String
  distance : ℚ
  duration : ℚ
  name : String
deriving DecidableEq, Repr

/-- A processed ORS route, as produced by `ORSService.processRouteResponse`:
distance already converted to kilometres, duration to minutes. -/
structure OrsRoute where
  distance : ℚ
  duration : ℚ
  coordinates : List Coord
  geometry : Geometry
  summary : Elevation
  instructions : List Instruction
deriving DecidableEq, Repr

/-- Outcome of one HTTP call to the ORS directions endpoint, before
`fetchRoute`'s own classification: a success (already run through
`processRouteResponse`'s numeric conversions), a non-2xx HTTP reply
(`code2010` records whether the ORS error body carried error code 2010,
the "no routable point within radius" rejection), or a malformed 2xx body
(`processRouteResponse` threw). -/
inductive NetOutcome where
  | success (r : OrsRoute)
  | httpFail (status : ℕ) (code2010 : Bool) (msg : String)
  | badResponse (msg : String)
deriving DecidableEq, Repr

/-- The ORS directions network oracle: outcome of the `n`-th directions call
of the request, as a function of the coordinates and profile sent. -/
def Net : Type :=
  ℕ → List Coord → String → NetOutcome

/-- Error-code constant mirroring `ERROR_CODES.VALIDATION_ERROR`. -/
def VALIDATION_ERROR : String := "VALIDATION_ERROR"

/-- Error-code constant mirroring `ERROR_CODES.EXTERNAL_SERVICE_ERROR`. -/
def EXTERNAL_SERVICE_ERROR : String := "EXTERNAL_SERVICE_ERROR"

/-- Error-code constant mirroring `ERROR_CODES.TRIP_GENERATION_FAILED`. -/
def TRIP_GENERATION_FAILED : String := "TRIP_GENERATION_FAILED"

/-- Error-code constant mirroring `ERROR_CODES.CITY_NOT_FOUND`. -/
def CITY_NOT_FOUND : String := "CITY_NOT_FOUND"

/-- Error-code constant mirroring `ERROR_CODES.INVALID_TRIP_TYPE`. -/
def INVALID_TRIP_TYPE : String := "INVALID_TRIP_TYPE"

/-- The generic message looked up from `ERROR_MESSAGES` for
`EXTERNAL_SERVICE_ERROR` (the file `errorCodes.js` is not among the
sources; only the code string is relied on, never this text). -/
def externalServiceMsg : String := "External service error"

/-- The message looked up from `ERROR_MESSAGES` for
`TRIP_GENERATION_FAILED` (text abstracted as for `externalServiceMsg`). -/
def tripGenerationFailedMsg : String := "Trip generation failed"

/-- Embedding of `ORSService.isInPacificOcean(lat, lng)`. -/
def isInPacificOcean (lat lng : ℚ) : Bool :=
  if decide (lng < -100) || decide (lng > 120) then
    if decide (jsMathAbs lng > 140) then true else false
  else false

/-- Embedding of `ORSService.isLikelyOnLand(lat, lng)`. -/
def isLikelyOnLand (lat lng : ℚ) : Bool :=
  if decide (jsMathAbs lat < 1) && decide (jsMathAbs lng < 1) then false
  else if isInPacificOcean lat lng then false
  else true

/-- Embedding of `ORSService.validateCoordinates`: first failing coordinate
throws.  The `typeof === 'number'` check is type-level here; interpolated
values are elided from the messages (no caller inspects them). -/
def validateCoordinatesE : List Coord → Except JsError Unit
  | [] => .ok ()
  | c :: rest =>
    if decide (c.lng < -180) || decide (c.lng > 180) then
      .error ⟨"Invalid longitude (must be between -180 and 180)", none⟩
    else if decide (c.lat < -90) || decide (c.lat > 90) then
      .error ⟨"Invalid latitude (must be between -90 and 90)", none⟩
    else if decide (c.lat = 0) && decide (c.lng = 0) then
      .error ⟨"Invalid coordinates: (0,0) is in the ocean near Africa", none⟩
    else validateCoordinatesE rest

/-- Embedding of `ORSService.validateLandCoordinates`: first coordinate
failing `isLikelyOnLand` throws (coordinate index and values elided from
the message; no caller inspects them). -/
def validateLandCoordinatesE : List Coord → Except JsError Unit
  | [] => .ok ()
  | c :: rest =>
    if isLikelyOnLand c.lat c.lng then validateLandCoordinatesE rest
    else .error ⟨"appears to be in water. Please use coordinates on land with road/path access.", none⟩

/-- The checks `fetchRoute` performs before any network traffic: arity,
numeric bounds, land plausibility (source lines 13-20 of `orsService.js`). -/
def prevalidateE (coords : List Coord) : Except JsError Unit :=
  if coords.length < 2 then
    .error ⟨"Need at least 2 coordinates for route generation", some VALIDATION_ERROR⟩
  else
    match validateCoordinatesE coords with
    | .error e => .error e
    | .ok _ => validateLandCoordinatesE coords

/-- The fixed message head of the ORS error-code-2010 classification in
`fetchRoute` (the provider message is appended after it). -/
def unreachableMsgHead : String :=
  "Could not find routable point within routing radius. Coordinates may be in water, buildings, or inaccessible terrain: "

/-- Embedding of `ORSService.fetchRoute`.  Takes the network oracle and the
number of directions calls made so far; returns the outcome and the updated
call count.  A prevalidation failure throws without consuming a network
call.  A 2xx response with a degenerate geometry throws (the
`processRouteResponse` final check), wrapped into the generic external
service error by the surrounding catch. -/
def fetchRoute (net : Net) (n : ℕ) (coords : List Coord) (profile : String) :
    Except JsError OrsRoute × ℕ :=
  match prevalidateE coords with
  | .error e => (.error e, n)
  | .ok _ =>
    match net n coords profile with
    | .success r =>
      if r.geometry.coordinates.length < 2 then
        (.error ⟨externalServiceMsg, some EXTERNAL_SERVICE_ERROR⟩, n + 1)
      else (.ok r, n + 1)
    | .httpFail _ true msg =>
      (.error ⟨unreachableMsgHead ++ msg, some VALIDATION_ERROR⟩, n + 1)
    | .httpFail _ false _ =>
      (.error ⟨"ORS API error", some EXTERNAL_SERVICE_ERROR⟩, n + 1)
    | .badResponse _ =>
      (.error ⟨externalServiceMsg, some EXTERNAL_SERVICE_ERROR⟩, n + 1)

/-- Is an `Except` outcome an error?  (Models a JS `catch` firing.) -/
def isErrB {α : Type} : Except JsError α → Bool
  | .error _ => true
  | .ok _ => false

/-- The IEEE-754 double value of JavaScript `Math.PI`, as an exact
rational. -/
def jsPI : ℚ := 884279719003555 / 281474976710656

/-- The external-world oracles of `CoordinateService`:
`cosQ`/`sinQ` model the float functions `Math.cos`/`Math.sin` (at angle 0
the genuine functions return exactly 1 and 0; theorems that depend on
candidate positions constrain the model only there);
`probe` models the ad-hoc `fetch` to
`/v2/directions/{profile}/geojson` inside `findRoutableCoordinates`,
returning `response.ok` for the given profile and coordinate body (a fetch
that throws is a `false`, matching the `catch { continue }`);
`geocode` models the geocode-search `fetch` of `geocodeCityCenter`,
`none` covering every failure mode (non-2xx, no features, thrown fetch). -/
structure CoordEnv where
  cosQ : ℚ → ℚ
  sinQ : ℚ → ℚ
  probe : String → List Coord → Bool
  geocode : String → Option Coord

/-- Embedding of `CoordinateService.generateNearbyCoordinates(lat, lng,
radius)`: eight ring points followed by the four cardinal offsets. -/
def generateNearbyCoordinates (env : CoordEnv) (lat lng radius : ℚ) : List Coord :=
  let ring := (List.range 8).map (fun (i : ℕ) =>
    let angle : ℚ := ((i : ℚ) * 2 * jsPI) / 8
    Coord.mk (lng + radius * env.sinQ angle) (lat + radius * env.cosQ angle))
  ring ++ [⟨lng, lat + radius⟩, ⟨lng, lat - radius⟩, ⟨lng + radius, lat⟩, ⟨lng - radius, lat⟩]

/-- The expanding search radii of `findRoutableCoordinates`. -/
def searchRadii : List ℚ := [1/1000, 2/1000, 5/1000, 1/100]

/-- Embedding of `CoordinateService.geocodeCityCenter(cityName)`: any
failure of the geocoding call is wrapped into the external-service
`AppError` by the surrounding catch. -/
def geocodeCityCenter (env : CoordEnv) (cityName : String) : Except JsError Coord :=
  match env.geocode cityName with
  | some c => .ok c
  | none => .error ⟨externalServiceMsg, some EXTERNAL_SERVICE_ERROR⟩

/-- Embedding of `CoordinateService.findRoutableCoordinates(originalCoords,
cityName, profile)`.  For each radius, in order, each ring candidate is
probed with a degenerate candidate-to-candidate request against the
hard-coded `foot-walking` directions URL; the first accepted candidate is
returned.  If none is accepted the geocoded city centre is returned.  Note
the `profile` argument is received but never used by the source body. -/
def findRoutableCoordinates (env : CoordEnv) (originalCoords : Coord)
    (cityName profile : String) : Except JsError Coord :=
  let candidates := searchRadii.flatMap
    (fun radius => generateNearbyCoordinates env originalCoords.lat originalCoords.lng radius)
  match candidates.find? (fun candidate => env.probe "foot-walking" [candidate, candidate]) with
  | some candidate => .ok candidate
  | none => geocodeCityCenter env cityName

/-- A raw point as read off the parsed JSON before `GroqService.validatePoint`:
`none` in `lat`/`lng` models a missing field or a value whose `Number(...)`
conversion is not finite; `name` is the optional string field. -/
structure RawPoint where
  lat : Option ℚ
  lng : Option ℚ
  name : Option String
deriving DecidableEq, Repr

/-- A raw per-day route object of the parsed JSON. -/
structure ParsedRoute where
  day : Option ℤ
  startPoint : Option RawPoint
  endPoint : Option RawPoint
  waypoints : Option (List RawPoint)
  description : Option String
deriving DecidableEq, Repr

/-- The raw top-level object of the parsed JSON (`none` models a missing
field or one of the wrong dynamic type: a non-string `city`, a
non-integer `estimatedDays`, a non-array `routes`, and so on). -/
structure ParsedTrip where
  city : Option String
  tripType : Option String
  estimatedDays : Option ℤ
  routes : Option (List ParsedRoute)
  highlights : Option (List String)
  equipment : Option (List String)
  tips : Option (List String)
deriving DecidableEq, Repr

/-- A validated per-day route skeleton, output of
`GroqService.parseAndValidateJSON` and input of `LLMService`. -/
structure LlmRoute where
  day : ℤ
  startPoint : Point
  endPoint : Point
  waypoints : List Point
  description : String
deriving DecidableEq, Repr

/-- The validated output of `GroqService.parseAndValidateJSON`. -/
structure LlmData where
  city : String
  tripType : String
  estimatedDays : ℤ
  routes : List LlmRoute
  highlights : List String
  equipment : List String
  tips : List String
deriving DecidableEq, Repr

/-- The Groq-side oracles: `llm n sys user` is the chat-completion content
returned by the `n`-th completion call of the request for the given system
and user prompts (`none` models a missing content field or a thrown SDK
call, both surfaced as the external-service error); `jsParse` models
`JSON.parse` plus the dynamic field reads on its result, `none` being a
parse failure. -/
structure GroqEnv where
  llm : ℕ → String → String → Option String
  jsParse : String → Option ParsedTrip

/-- The opening-brace character, written via its code point. -/
def lbrace : Char := Char.ofNat 123

/-- The closing-brace character, written via its code point. -/
def rbrace : Char := Char.ofNat 125

/-- A whitespace test approximating the JavaScript regex class `\s`. -/
def isJsWs (c : Char) : Bool :=
  c == ' ' || c == '\t' || c == '\n' || c == '\r'

/-- The backtick character of a Markdown code fence. -/
def btick : Char := Char.ofNat 96

/-- Embedding of `GroqService.extractJSON(text)`: strip a leading
code-fence marker (with optional case-insensitive `json` tag) and a
trailing one, then slice from the first opening brace to the last closing
brace. -/
def extractJSON (text : String) : Except JsError String :=
  let l := text.data
  let afterFence :=
    if l.take 3 = [btick, btick, btick] then
      if ((l.drop 3).take 4).map Char.toLower = "json".data then
        ((l.drop 7).dropWhile isJsWs)
      else ((l.drop 3).dropWhile isJsWs)
    else l
  let r := afterFence.reverse.dropWhile isJsWs
  let cleaned := if r.take 3 = [btick, btick, btick] then (r.drop 3).reverse else afterFence
  match cleaned.findIdx? (· == lbrace), cleaned.reverse.findIdx? (· == rbrace) with
  | some s, some rEnd =>
    let e := cleaned.length - 1 - rEnd
    if e ≤ s then .error ⟨"No valid JSON object found in response", some VALIDATION_ERROR⟩
    else .ok ⟨(cleaned.drop s).take (e + 1 - s)⟩
  | _, _ => .error ⟨"No valid JSON object found in response", some VALIDATION_ERROR⟩

/-- Embedding of `GroqService.validatePoint(point)`: numeric bounds only
(land plausibility is deferred to routing); the name defaults to the empty
string like `String(point.name || '')`. -/
def validatePointG (p : RawPoint) : Except JsError Point :=
  match p.lat, p.lng with
  | some lat, some lng =>
    if decide (lat < -90) || decide (lat > 90) then
      .error ⟨"Invalid latitude", some VALIDATION_ERROR⟩
    else if decide (lng < -180) || decide (lng > 180) then
      .error ⟨"Invalid longitude", some VALIDATION_ERROR⟩
    else .ok ⟨lat, lng, (p.name.getD "")⟩
  | none, _ => .error ⟨"Invalid latitude", some VALIDATION_ERROR⟩
  | _, none => .error ⟨"Invalid longitude", some VALIDATION_ERROR⟩

/-- Validates the raw waypoint list of one route. -/
def validateWaypointsG : List RawPoint → Except JsError (List Point)
  | [] => .ok []
  | w :: ws =>
    match validatePointG w with
    | .error e => .error e
    | .ok p =>
      match validateWaypointsG ws with
      | .error e => .error e
      | .ok ps => .ok (p :: ps)

/-- The `parsed.routes.map((route, index) => ...)` body of
`parseAndValidateJSON`: checks presence of the endpoints, validates every
point, defaults the day number to `index + 1` (also when `route.day` is the
falsy 0) and the description to the empty string. -/
def validateRoutesG : List ParsedRoute → ℕ → Except JsError (List LlmRoute)
  | [], _ => .ok []
  | route :: rest, index =>
    match route.startPoint, route.endPoint with
    | some sp, some ep =>
      match validatePointG sp with
      | .error e => .error e
      | .ok p1 =>
        match validatePointG ep with
        | .error e => .error e
        | .ok p2 =>
          match validateWaypointsG (route.waypoints.getD []) with
          | .error e => .error e
          | .ok wps =>
            match validateRoutesG rest (index + 1) with
            | .error e => .error e
            | .ok rs =>
              let day := match route.day with
                | some d => if d = 0 then (index : ℤ) + 1 else d
                | none => (index : ℤ) + 1
              .ok ({ day := day, startPoint := p1, endPoint := p2,
                     waypoints := wps, description := route.description.getD "" } :: rs)
    | _, _ => .error ⟨"Route missing start/end point", some VALIDATION_ERROR⟩

/-- Embedding of `GroqService.parseAndValidateJSON(jsonString,
expectedTripType)`. -/
def parseAndValidateJSON (jsParse : String → Option ParsedTrip)
    (jsonString expectedTripType : String) : Except JsError LlmData :=
  match extractJSON jsonString with
  | .error e => .error e
  | .ok cleanedJSON =>
    match jsParse cleanedJSON with
    | none => .error ⟨"Invalid JSON format", some VALIDATION_ERROR⟩
    | some parsed =>
      match parsed.city with
      | none => .error ⟨"Invalid or missing city", some VALIDATION_ERROR⟩
      | some city =>
        if city = "" || !(strIncludes city ",") then
          .error ⟨"Invalid or missing city", some VALIDATION_ERROR⟩
        else
          match parsed.tripType with
          | none => .error ⟨"Invalid tripType", some VALIDATION_ERROR⟩
          | some tripType =>
            if tripType ≠ expectedTripType then
              .error ⟨"Invalid tripType", some VALIDATION_ERROR⟩
            else
              match parsed.estimatedDays with
              | none => .error ⟨"Invalid estimatedDays", some VALIDATION_ERROR⟩
              | some estimatedDays =>
                if estimatedDays < 1 then
                  .error ⟨"Invalid estimatedDays", some VALIDATION_ERROR⟩
                else
                  match parsed.routes with
                  | none => .error ⟨"Routes array length mismatch", some VALIDATION_ERROR⟩
                  | some routes =>
                    if (routes.length : ℤ) ≠ estimatedDays then
                      .error ⟨"Routes array length mismatch", some VALIDATION_ERROR⟩
                    else
                      let typeCheck : Except JsError Unit :=
                        if expectedTripType = "trek" then
                          if estimatedDays < 1 || estimatedDays > 5 then
                            .error ⟨"Trek must be 1-5 days", some VALIDATION_ERROR⟩
                          else
                            match routes.head?, routes.getLast? with
                            | some firstDay, some lastDay =>
                              match firstDay.startPoint, lastDay.endPoint with
                              | some _, some _ => .ok ()
                              | _, _ => .error ⟨"Missing start/end points for trek validation", some VALIDATION_ERROR⟩
                            | _, _ => .error ⟨"Missing start/end points for trek validation", some VALIDATION_ERROR⟩
                        else if expectedTripType = "cycling" then
                          if estimatedDays ≠ 2 then
                            .error ⟨"Cycling must be exactly 2 days", some VALIDATION_ERROR⟩
                          else .ok ()
                        else .ok ()
                      match typeCheck with
                      | .error e => .error e
                      | .ok _ =>
                        match validateRoutesG routes 0 with
                        | .error e => .error e
                        | .ok vroutes =>
                          .ok { city := city, tripType := tripType,
                                estimatedDays := estimatedDays, routes := vroutes,
                                highlights := parsed.highlights.getD [],
                                equipment := parsed.equipment.getD [],
                                tips := parsed.tips.getD [] }

/-- The guidance block injected when the previous failure was a
non-routable-coordinate error (source text abbreviated to its first line;
the remainder is inert prose). -/
def routingGuidance : String :=
  "CRITICAL ROUTING REQUIREMENTS - Previous attempt failed due to non-routable coordinates"

/-- Assembly of the user prompt from the error guidance, the base template
and the trip-type-specific requirements (the long inert prose of the
template is abbreviated; the structure of the assembly is preserved). -/
def promptText (destination tripType errorGuidance : String) : String :=
  let basePrompt := "Generate a " ++ tripType ++ " route plan for " ++ destination ++ ". "
    ++ errorGuidance
    ++ " Output ONLY valid JSON matching this exact schema with no additional text."
  if tripType = "trek" then basePrompt ++ " TREK REQUIREMENTS"
  else basePrompt ++ " CYCLING REQUIREMENTS"

/-- Models the JavaScript expression `previousError.includes('routable
point')` in `buildRoutePrompt`, where `previousError` is the `Error` or
`AppError` object recorded by the retry loop: `Error` objects define no
`includes` method (only strings do), so the property lookup yields
`undefined` and calling it throws a `TypeError`. -/
def errorDotIncludes (e : JsError) (pat : String) : Except JsError Bool :=
  .error ⟨"previousError.includes is not a function", none⟩

/-- Embedding of `GroqService.buildRoutePrompt(destination, tripType,
previousError)`. -/
def buildRoutePrompt (destination tripType : String) (previousError : Option JsError) :
    Except JsError String :=
  match previousError with
  | none => .ok (promptText destination tripType "")
  | some e =>
    match errorDotIncludes e "routable point" with
    | .error te => .error te
    | .ok b => .ok (promptText destination tripType (if b then routingGuidance else ""))

/-- The strict system instruction used on retries (`isRetry = true`). -/
def strictSystemPrompt : String :=
  "You MUST return ONLY valid JSON. No markdown, no backticks, no explanations. Start with \x7b and end with \x7d."

/-- The normal system instruction used on the first attempt. -/
def normalSystemPrompt : String :=
  "Return ONLY valid JSON matching the specified schema. No additional text."

/-- Embedding of `GroqService.callLLMForJSON(prompt, isRetry)`, counting
completion calls through `n`. -/
def callLLMForJSON (gro : GroqEnv) (n : ℕ) (prompt : String) (isRetry : Bool) :
    Except JsError String × ℕ :=
  let systemPrompt := if isRetry then strictSystemPrompt else normalSystemPrompt
  match gro.llm n systemPrompt prompt with
  | none => (.error ⟨externalServiceMsg, some EXTERNAL_SERVICE_ERROR⟩, n + 1)
  | some response => (.ok response, n + 1)

/-- One iteration of the `generateRoutePoints` attempt loop: build the
prompt, call the model, parse and validate.  A throw anywhere in the
`try` block surfaces as the iteration's error. -/
def oneAttempt (gro : GroqEnv) (destination tripType : String)
    (previousError : Option JsError) (isRetry : Bool) (n : ℕ) :
    Except JsError LlmData × ℕ :=
  match buildRoutePrompt destination tripType previousError with
  | .error e => (.error e, n)
  | .ok prompt =>
    match callLLMForJSON gro n prompt isRetry with
    | (.error e, n1) => (.error e, n1)
    | (.ok response, n1) => (parseAndValidateJSON gro.jsParse response tripType, n1)

/-- The attempt loop of `generateRoutePoints`: `remaining` counts the
attempts still allowed (the loop runs for `attempt = 1..maxAttempts`, so it
starts at 3), `attempt` is the 1-based attempt number.  On the final
attempt's failure the loop throws the aggregated
`TRIP_GENERATION_FAILED` error carrying the last error's message. -/
def attemptLoop (gro : GroqEnv) (destination tripType : String) :
    ℕ → ℕ → Option JsError → ℕ → Except JsError LlmData × ℕ
  | 0, _, _, n =>
    -- unreachable in the source: the last failing attempt throws inside the loop
    (.error ⟨"attempt loop exhausted", none⟩, n)
  | remaining + 1, attempt, lastError, n =>
    match oneAttempt gro destination tripType
        (if attempt > 1 then lastError else none) (attempt > 1) n with
    | (.ok parsed, n1) => (.ok parsed, n1)
    | (.error e, n1) =>
      if remaining = 0 then
        (.error ⟨"Failed to generate valid route after 3 attempts: " ++ e.message,
                 some TRIP_GENERATION_FAILED⟩, n1)
      else attemptLoop gro destination tripType remaining (attempt + 1) (some e) n1

/-- Embedding of `GroqService.generateRoutePoints(destination, tripType)`:
up to `maxAttempts = 3` attempts, threading the completion-call counter. -/
def generateRoutePoints (gro : GroqEnv) (destination tripType : String) (n : ℕ) :
    Except JsError LlmData × ℕ :=
  attemptLoop gro destination tripType 3 1 none n

/-- A resolved per-day route of the pipeline (`ResolvedRoute`). -/
structure Route where
  day : ℤ
  distance : ℚ
  duration : ℚ
  startPoint : Point
  endPoint : Point
  waypoints : List Point
  coordinates : List Coord
  geometry : Geometry
  description : String
  elevation : Elevation
  instructions : List Instruction
deriving DecidableEq, Repr

/-- The final trip record assembled by `LLMService.generateRoute`. -/
structure Trip where
  destination : String
  city : String
  tripType : String
  totalDistance : ℚ
  estimatedDuration : ℚ
  estimatedDays : ℤ
  routes : List Route
  highlights : List String
  difficulty : String
  equipment : List String
  tips : List String
  countryImage : String
deriving DecidableEq, Repr

/-- The `[lng, lat]` array built from a point. -/
def pointToCoord (p : Point) : Coord := ⟨p.lng, p.lat⟩

/-- The coordinate array `[start, ...waypoints, end]` a day's routing
request is built from (`buildRealRoutes`, lines 75-79).  The source's falsy
re-check of `startPoint`/`endPoint` at line 71 is a no-op here: the points
are always present in `parseAndValidateJSON`'s output, which throws
otherwise. -/
def routeCoords (rd : LlmRoute) : List Coord :=
  pointToCoord rd.startPoint :: (rd.waypoints.map pointToCoord ++ [pointToCoord rd.endPoint])

/-- The day route object pushed on the success path of `buildRealRoutes`. -/
def mkDayRoute (rd : LlmRoute) (ors : OrsRoute) : Route :=
  { day := rd.day, distance := ors.distance, duration := ors.duration,
    startPoint := rd.startPoint, endPoint := rd.endPoint,
    waypoints := rd.waypoints, coordinates := ors.coordinates,
    geometry := ors.geometry, description := rd.description,
    elevation := ors.summary, instructions := ors.instructions }

/-- The waypoint name defaulting of the repaired-route branch:
`(routeData.waypoints && routeData.waypoints[i] && routeData.waypoints[i].name) || `Waypoint i+1``
(an empty stored name is falsy and also falls back). -/
def fixedWaypointName (originals : List Point) (i : ℕ) : String :=
  match originals.get? i with
  | some w => if w.name = "" then "Waypoint " ++ toString (i + 1) else w.name
  | none => "Waypoint " ++ toString (i + 1)

/-- The day route object pushed on the repaired path of `buildRealRoutes`:
start/end/waypoints are rebuilt from the corrected coordinates, keeping the
original names. -/
def mkFixedRoute (rd : LlmRoute) (fixed : List Coord) (ors : OrsRoute) : Route :=
  let startC := fixed.headD ⟨0, 0⟩
  let endC := fixed.getLastD ⟨0, 0⟩
  let middle := (fixed.drop 1).dropLast
  { day := rd.day, distance := ors.distance, duration := ors.duration,
    startPoint := { lat := startC.lat, lng := startC.lng, name := rd.startPoint.name },
    endPoint := { lat := endC.lat, lng := endC.lng, name := rd.endPoint.name },
    waypoints := middle.enum.map (fun p =>
      { lat := p.2.lat, lng := p.2.lng, name := fixedWaypointName rd.waypoints p.1 }),
    coordinates := ors.coordinates, geometry := ors.geometry,
    description := rd.description, elevation := ors.summary,
    instructions := ors.instructions }

/-- Embedding of `LLMService.fixNonRoutableCoordinates(coordinates,
cityName, profile)`: each coordinate is run through
`findRoutableCoordinates`; if that throws, the geocoded city centre is used
instead, and a failure of that geocoding call itself propagates. -/
def fixNonRoutableCoordinates (env : CoordEnv) (coordinates : List Coord)
    (cityName profile : String) : Except JsError (List Coord) :=
  match coordinates with
  | [] => .ok []
  | coord :: rest =>
    let fixedOne : Except JsError Coord :=
      match findRoutableCoordinates env coord cityName profile with
      | .ok routableCoord => .ok routableCoord
      | .error _ => geocodeCityCenter env cityName
    match fixedOne with
    | .error e => .error e
    | .ok c =>
      match fixNonRoutableCoordinates env rest cityName profile with
      | .error e => .error e
      | .ok cs => .ok (c :: cs)

/-- One iteration of the `buildRealRoutes` loop: route the day; on an error
whose message includes `'routable point'`, repair the coordinates and retry
the routing call exactly once, a failure of the retry being the fatal
`TRIP_GENERATION_FAILED`; any other error propagates. -/
def buildDay (env : CoordEnv) (net : Net) (n : ℕ) (rd : LlmRoute)
    (profile cityName : String) : Except JsError Route × ℕ :=
  let coordinates := routeCoords rd
  match fetchRoute net n coordinates profile with
  | (.ok orsRoute, n1) => (.ok (mkDayRoute rd orsRoute), n1)
  | (.error e, n1) =>
    if strIncludes e.message "routable point" then
      match fixNonRoutableCoordinates env coordinates cityName profile with
      | .error e2 => (.error e2, n1)
      | .ok fixedCoordinates =>
        match fetchRoute net n1 fixedCoordinates profile with
        | (.ok orsRoute, n2) => (.ok (mkFixedRoute rd fixedCoordinates orsRoute), n2)
        | (.error _, n2) =>
          (.error ⟨tripGenerationFailedMsg, some TRIP_GENERATION_FAILED⟩, n2)
    else (.error e, n1)

/-- Embedding of `LLMService.buildRealRoutes(llmRoutes, tripType,
cityName)`: sequential per-day routing, the profile being selected from the
trip type in each iteration exactly as in the source loop body. -/
def buildRealRoutes (env : CoordEnv) (net : Net) (n : ℕ) (llmRoutes : List LlmRoute)
    (tripType cityName : String) : Except JsError (List Route) × ℕ :=
  match llmRoutes with
  | [] => (.ok [], n)
  | rd :: rest =>
    let profile := if tripType = "trek" then "foot-walking" else "cycling-regular"
    match buildDay env net n rd profile cityName with
    | (.error e, n1) => (.error e, n1)
    | (.ok route, n1) =>
      match buildRealRoutes env net n1 rest tripType cityName with
      | (.error e, n2) => (.error e, n2)
      | (.ok routes, n2) => (.ok (route :: routes), n2)

/-- Replaces the last element of a list by `f` of it (the JavaScript
assignment `rs[rs.length - 1] = f(lastRoute)`). -/
def replaceLast (f : Route → Route) : List Route → List Route
  | [] => []
  | [r] => [f r]
  | r :: r2 :: rest => r :: replaceLast f (r2 :: rest)

/-- The over-distance repair loop of `processTrekRoutes` (first `for` loop):
for each day whose distance exceeds 15 km, reroute with at most the first
1-2 waypoints towards the next day's start, then, if still over 15 km,
reroute directly start-to-end.  `fuel` counts the remaining iterations and
starts at the list length (which every update preserves). -/
def adjustLoop (net : Net) (city : String) :
    ℕ → ℕ → List Route → ℕ → Except JsError (List Route) × ℕ
  | 0, _, rs, n => (.ok rs, n)
  | fuel + 1, i, rs, n =>
    if h : i < rs.length then
      let route := rs.get ⟨i, h⟩
      if decide (route.distance > 15) then
        let waypoints := route.waypoints
        let reducedWaypoints := if waypoints.length > 2 then waypoints.take 2 else waypoints.take 1
        let endPoint := match rs.get? (i + 1) with
          | some nxt => nxt.startPoint
          | none => route.endPoint
        let shorterCoords := pointToCoord route.startPoint ::
          (reducedWaypoints.map pointToCoord ++ [pointToCoord endPoint])
        match fetchRoute net n shorterCoords "foot-walking" with
        | (.error e, n1) => (.error e, n1)
        | (.ok shorterOrs, n1) =>
          let rs1 := rs.set i { route with
            waypoints := reducedWaypoints, distance := shorterOrs.distance,
            duration := shorterOrs.duration, coordinates := shorterOrs.coordinates,
            geometry := shorterOrs.geometry, elevation := shorterOrs.summary,
            instructions := shorterOrs.instructions }
          if decide (shorterOrs.distance > 15) then
            let directCoords := [pointToCoord route.startPoint, pointToCoord endPoint]
            match fetchRoute net n1 directCoords "foot-walking" with
            | (.error e, n2) => (.error e, n2)
            | (.ok directOrs, n2) =>
              let rs2 := rs.set i { route with
                waypoints := [], distance := directOrs.distance,
                duration := directOrs.duration, coordinates := directOrs.coordinates,
                geometry := directOrs.geometry, elevation := directOrs.summary,
                instructions := directOrs.instructions }
              adjustLoop net city fuel (i + 1) rs2 n2
          else adjustLoop net city fuel (i + 1) rs1 n1
      else adjustLoop net city fuel (i + 1) rs n
    else (.ok rs, n)

/-- The body of the continuity pass, walking the list with the previous
day (`prev`) already processed: the current day's start point is
overwritten with `prev`'s end point whenever the two are not already the
same location, and the updated day is what the next iteration reads. -/
def forceContinuityAux (prev : Route) : List Route → List Route
  | [] => []
  | r2 :: rest =>
    let r2' := if isSamePointB prev.endPoint r2.startPoint then r2
               else { r2 with startPoint := prev.endPoint }
    r2' :: forceContinuityAux r2' rest

/-- The continuity pass of `processTrekRoutes` (second `for` loop): each
day's start point is overwritten with the previous day's end point whenever
the two are not already the same location. -/
def forceContinuity : List Route → List Route
  | [] => []
  | r :: rest => r :: forceContinuityAux r rest

/-- The loop-closure pass of `processTrekRoutes`: when the overall start and
end are not the same location, a return route is fetched from the last
day's final waypoint (or its start when it has no waypoints) back to the
overall start, and the last day's end point and metrics are replaced with
the result.  An empty route list throws (the source dereferences
`processedRoutes[0]`). -/
def closeLoop (net : Net) (city : String) (rs : List Route) (n : ℕ) :
    Except JsError (List Route) × ℕ :=
  match rs with
  | [] => (.error ⟨"Cannot read properties of undefined", none⟩, n)
  | firstRoute :: rest =>
    let firstDayStart := firstRoute.startPoint
    let lastRoute := rest.getLastD firstRoute
    if isSamePointB firstDayStart lastRoute.endPoint then (.ok (firstRoute :: rest), n)
    else
      let lastWaypoints := lastRoute.waypoints
      let returnCoords := match lastWaypoints.getLast? with
        | some w => [pointToCoord w, pointToCoord firstDayStart]
        | none => [pointToCoord lastRoute.startPoint, pointToCoord firstDayStart]
      match fetchRoute net n returnCoords "foot-walking" with
      | (.error e, n1) => (.error e, n1)
      | (.ok returnOrs, n1) =>
        (.ok (replaceLast (fun lastR => { lastR with
            endPoint := firstDayStart, distance := returnOrs.distance,
            duration := returnOrs.duration, coordinates := returnOrs.coordinates,
            geometry := returnOrs.geometry, elevation := returnOrs.summary,
            instructions := returnOrs.instructions }) (firstRoute :: rest)), n1)

/-- Embedding of `LLMService.processTrekRoutes(routes, llmRouteData)`:
over-distance repair, then forced continuity, then loop closure. -/
def processTrekRoutes (net : Net) (city : String) (routes : List Route) (n : ℕ) :
    Except JsError (List Route) × ℕ :=
  match adjustLoop net city routes.length 0 routes n with
  | (.error e, n1) => (.error e, n1)
  | (.ok rs1, n1) => closeLoop net city (forceContinuity rs1) n1

/-- Embedding of `LLMService.processCyclingRoutes(routes)`: exactly two
days, each between 10 and 60 km, overall point-to-point; the day-1-end to
day-2-start continuity check only warns. -/
def processCyclingRoutes (routes : List Route) : Except JsError (List Route) :=
  match routes with
  | [a, b] =>
    if decide (a.distance < 10) || decide (a.distance > 60) then
      .error ⟨"Distance is outside 10-60km range", none⟩
    else if decide (b.distance < 10) || decide (b.distance > 60) then
      .error ⟨"Distance is outside 10-60km range", none⟩
    else if isSamePointB a.startPoint b.endPoint then
      .error ⟨"Cycling trip must be point-to-point overall", none⟩
    else .ok [a, b]
  | _ => .error ⟨"Cycling trip must have exactly 2 days", none⟩

/-- JavaScript `Math.round(x * 100) / 100` (round half towards positive
infinity, matching `round` on `ℚ`). -/
def roundTo2 (x : ℚ) : ℚ := ((round (x * 100) : ℤ) : ℚ) / 100

/-- Embedding of `LLMService.calculateDifficulty(totalDistance, days,
tripType)`.  (For `days = 0` JavaScript's float division yields `NaN` and
the comparisons select `'hard'`, while `ℚ` division yields 0; successful
trips always have `days ≥ 1`, where the two agree.) -/
def calculateDifficulty (totalDistance : ℚ) (days : ℤ) (tripType : String) : String :=
  let avgPerDay := totalDistance / (days : ℚ)
  if tripType = "trek" then
    if decide (avgPerDay ≤ 8) then "easy"
    else if decide (avgPerDay ≤ 12) then "moderate"
    else "hard"
  else
    if decide (avgPerDay ≤ 30) then "easy"
    else if decide (avgPerDay ≤ 50) then "moderate"
    else "hard"

/-- Embedding of `ConstraintService.validatePoint(point, context)` as a
pass/fail check: numeric bounds plus a non-empty name (`!point.name` is
falsy for the empty string). -/
def validatePointB (p : Point) : Bool :=
  decide (-90 ≤ p.lat) && decide (p.lat ≤ 90) &&
  decide (-180 ≤ p.lng) && decide (p.lng ≤ 180) &&
  !(p.name == "")

/-- Embedding of `ConstraintService.validateRouteStructure(route)` as a
pass/fail check.  `Number.isInteger`/`Number.isFinite` and the
array-presence checks are type-level here; the geometry must hold at least
two coordinates and the points and waypoints must validate. -/
def validateRouteStructureB (r : Route) : Bool :=
  decide (1 ≤ r.day) &&
  decide (0 ≤ r.distance) &&
  decide (0 ≤ r.duration) &&
  validatePointB r.startPoint &&
  validatePointB r.endPoint &&
  r.waypoints.all validatePointB &&
  decide (2 ≤ r.geometry.coordinates.length)

/-- Embedding of `ConstraintService.validateTrek(trip)` as a pass/fail
check: trip type, day-count bounds, route-count match, per-day distance in
[5, 15] km and structural validity.  The continuity and circularity checks
of the source only emit `console.warn` and never throw, so they do not
constrain the outcome. -/
def validateTrekB (trip : Trip) : Bool :=
  (trip.tripType == "trek") &&
  decide (1 ≤ trip.estimatedDays) && decide (trip.estimatedDays ≤ 5) &&
  ((trip.routes.length : ℤ) == trip.estimatedDays) &&
  trip.routes.all (fun r =>
    decide (5 ≤ r.distance) && decide (r.distance ≤ 15) && validateRouteStructureB r)

/-- Embedding of `ConstraintService.validateCycling(trip)` as a pass/fail
check: trip type, exactly 2 days and routes, per-day distance in
[0.01, 60] km, structural validity, day-1-end equals day-2-start, and the
overall start must differ from the overall end. -/
def validateCyclingB (trip : Trip) : Bool :=
  (trip.tripType == "cycling") &&
  (trip.estimatedDays == 2) &&
  (match trip.routes with
   | [a, b] =>
     (decide ((1:ℚ)/100 ≤ a.distance) && decide (a.distance ≤ 60) && validateRouteStructureB a) &&
     (decide ((1:ℚ)/100 ≤ b.distance) && decide (b.distance ≤ 60) && validateRouteStructureB b) &&
     isSamePointB a.endPoint b.startPoint &&
     !(isSamePointB a.startPoint b.endPoint)
   | _ => false)

/-- Embedding of `LLMService.validateFinalTrip(trip)`: the per-route
geometry/point presence checks are type-level here; the trip-type-specific
constraint validation throws on failure. -/
def validateFinalTrip (trip : Trip) : Except JsError Unit :=
  if trip.tripType == "trek" then
    if validateTrekB trip then .ok () else .error ⟨"trek validation failed", none⟩
  else
    if validateCyclingB trip then .ok () else .error ⟨"cycling validation failed", none⟩

/-- Embedding of `LLMService.generateRoute(destination, tripType)`, the
whole pipeline: Groq route skeleton, real per-day routing, trip-type
post-processing, totals, image lookup, final validation.  `image` is the
oracle outcome of `imageService.getDestinationImage(destination)`; `n`
counts the ORS directions calls made (the Groq completion-call counter is
request-local and starts at 0). -/
def generateRoute (gro : GroqEnv) (env : CoordEnv) (net : Net)
    (image : Except JsError String) (destination tripType : String) (n : ℕ) :
    Except JsError Trip × ℕ :=
  match generateRoutePoints gro destination tripType 0 with
  | (.error e, _) => (.error e, n)
  | (.ok llmRouteData, _) =>
    if llmRouteData.city == "" then
      (.error ⟨"City not found", some CITY_NOT_FOUND⟩, n)
    else if !(tripType == "trek" || tripType == "cycling") then
      (.error ⟨"Invalid trip type", some INVALID_TRIP_TYPE⟩, n)
    else
      match buildRealRoutes env net n llmRouteData.routes tripType llmRouteData.city with
      | (.error e, n1) => (.error e, n1)
      | (.ok routes, n1) =>
        match (if tripType == "trek" then
                 processTrekRoutes net llmRouteData.city routes n1
               else (processCyclingRoutes routes, n1)) with
        | (.error e, n2) => (.error e, n2)
        | (.ok validatedRoutes, n2) =>
          let totalDistance := (validatedRoutes.map (fun r => r.distance)).sum
          let totalDuration := (validatedRoutes.map (fun r => r.duration)).sum
          match image with
          | .error e => (.error e, n2)
          | .ok countryImage =>
            let result : Trip :=
              { destination := destination, city := llmRouteData.city,
                tripType := llmRouteData.tripType,
                totalDistance := roundTo2 totalDistance,
                estimatedDuration := totalDuration,
                estimatedDays := llmRouteData.estimatedDays,
                routes := validatedRoutes,
                highlights := llmRouteData.highlights,
                difficulty := calculateDifficulty totalDistance llmRouteData.estimatedDays tripType,
                equipment := llmRouteData.equipment,
                tips := llmRouteData.tips,
                countryImage := countryImage }
            match validateFinalTrip result with
            | .error e => (.error e, n2)
            | .ok _ => (.ok result, n2)

/-- Bounded form of the adjacent-day continuity property of claim C1: every
day's end point is the same location as the next day's start point. -/
def contiguousB : List Route → Bool
  | [] => true
  | [_] => true
  | a :: b :: rest => isSamePointB a.endPoint b.startPoint && contiguousB (b :: rest)

/-- Bounded form of the loop-closure property of claim C1: the first day's
start point is the same location as the last day's end point (false for an
empty route list). -/
def loopClosedB : List Route → Bool
  | [] => false
  | r :: rest => isSamePointB r.startPoint (rest.getLastD r).endPoint

/-- The geometric trek invariant of claim C1: continuity plus closure. -/
def trekGeometryOkB (rs : List Route) : Bool :=
  contiguousB rs && loopClosedB rs

/-- The numeric trek invariant of claim C2: route count equals the day
count, the day count is in [1, 5] and every distance is in [5, 15] km. -/
def trekInvariantsB (t : Trip) : Bool :=
  ((t.routes.length : ℤ) == t.estimatedDays) &&
  decide (1 ≤ t.estimatedDays) && decide (t.estimatedDays ≤ 5) &&
  t.routes.all (fun r => decide (5 ≤ r.distance) && decide (r.distance ≤ 15))

/-- The cycling invariant of claim C3: exactly two routes, each distance in
[10, 60] km, day-1 end meets day-2 start, and the overall start is not the
same location as the overall end. -/
def cyclingShapeB : List Route → Bool
  | [a, b] =>
    decide (10 ≤ a.distance) && decide (a.distance ≤ 60) &&
    decide (10 ≤ b.distance) && decide (b.distance ≤ 60) &&
    isSamePointB a.endPoint b.startPoint &&
    !(isSamePointB a.startPoint b.endPoint)
  | _ => false

/-- Concrete point used by the witness scenarios. -/
def exPointA : Point := ⟨48, 2, "Paris Center"⟩

/-- Concrete coordinate used by the witness scenarios. -/
def exCoordA : Coord := ⟨2, 48⟩

/-- Concrete processed ORS route used by the witness scenarios. -/
def exOrs : OrsRoute :=
  { distance := 10, duration := 120, coordinates := [exCoordA, exCoordA],
    geometry := ⟨[exCoordA, exCoordA]⟩, summary := ⟨0, 0⟩, instructions := [] }

/-- A network oracle that answers every directions call with `exOrs`. -/
def exNet : Net := fun _ _ _ => .success exOrs

/-- A coordinate-service environment whose routing probe accepts every
candidate and whose geocoder always answers.  The trig model agrees with
`Math.cos`/`Math.sin` at angle 0, the only angle the accepting-probe runs
ever inspect (the first ring candidate is returned immediately). -/
def exCoordEnv : CoordEnv :=
  { cosQ := fun _ => 1, sinQ := fun _ => 0,
    probe := fun _ _ => true, geocode := fun _ => some exCoordA }

/-- A coordinate-service environment whose routing probe rejects every
candidate and whose geocoder always fails. -/
def exCoordEnvDown : CoordEnv :=
  { cosQ := fun _ => 1, sinQ := fun _ => 0,
    probe := fun _ _ => false, geocode := fun _ => none }

/-- Concrete raw point of the witness Groq payload. -/
def exRawPoint : RawPoint := ⟨some 48, some 2, some "Paris Center"⟩

/-- Concrete raw route of the witness Groq payload. -/
def exParsedRoute : ParsedRoute :=
  { day := some 1, startPoint := some exRawPoint, endPoint := some exRawPoint,
    waypoints := some [], description := some "day one" }

/-- Concrete raw trip of the witness Groq payload. -/
def exParsedTrip : ParsedTrip :=
  { city := some "Paris, France", tripType := some "trek", estimatedDays := some 1,
    routes := some [exParsedRoute], highlights := some [], equipment := some [],
    tips := some [] }

/-- A Groq environment that returns a tiny JSON object on every call and
parses it to `exParsedTrip`. -/
def exGroqEnv : GroqEnv :=
  { llm := fun _ _ _ => some "\x7bok\x7d", jsParse := fun _ => some exParsedTrip }

/-- A Groq environment whose model replies with bare prose, so the first
parse attempt fails (no JSON object in the response). -/
def exGroqEnvProse : GroqEnv :=
  { llm := fun _ _ _ => some "hello", jsParse := fun _ => none }

/-- The validated route skeleton the witness Groq payload parses to. -/
def exLlmRoute : LlmRoute :=
  { day := 1, startPoint := exPointA, endPoint := exPointA, waypoints := [],
    description := "day one" }

/-- The resolved day route of the witness trek run. -/
def exRoute : Route :=
  { day := 1, distance := 10, duration := 120, startPoint := exPointA,
    endPoint := exPointA, waypoints := [], coordinates := [exCoordA, exCoordA],
    geometry := ⟨[exCoordA, exCoordA]⟩, description := "day one",
    elevation := ⟨0, 0⟩, instructions := [] }

/-- The trip the witness trek run produces. -/
def exTrip : Trip :=
  { destination := "Paris, France", city := "Paris, France", tripType := "trek",
    totalDistance := 10, estimatedDuration := 120, estimatedDays := 1,
    routes := [exRoute], highlights := [], difficulty := "moderate",
    equipment := [], tips := [], countryImage := "img" }

/-- A network oracle whose first directions call is the ORS code-2010
"no routable point" rejection and whose later calls fail with a plain
server error. -/
def exNet5 : Net := fun n _ _ =>
  if n = 0 then .httpFail 404 true "radius exceeded" else .httpFail 502 false "bad gateway"

/-- A coordinate-service environment whose routing probe rejects every
candidate but whose geocoder answers, exercising the centroid fallback. -/
def exCoordEnvFallback : CoordEnv :=
  { cosQ := fun _ => 1, sinQ := fun _ => 0,
    probe := fun _ _ => false, geocode := fun _ => some exCoordA }

set_option allowUnsafeReducibility true

attribute [local semireducible] Rat.add Rat.sub Rat.mul Rat.div Rat.neg Rat.inv

/-- Concrete mid point of the cycling witness scenario. -/
def exPointB : Point := ⟨48, 3, "Mid Town"⟩

/-- Concrete end point of the cycling witness scenario. -/
def exPointC : Point := ⟨48, 4, "End Town"⟩

/-- Concrete raw points of the cycling witness payload. -/
def exRawPointB : RawPoint := ⟨some 48, some 3, some "Mid Town"⟩

/-- Concrete raw end point of the cycling witness payload. -/
def exRawPointC : RawPoint := ⟨some 48, some 4, some "End Town"⟩

/-- Day 1 of the cycling witness payload. -/
def exParsedRouteC1 : ParsedRoute :=
  { day := some 1, startPoint := some exRawPoint, endPoint := some exRawPointB,
    waypoints := some [], description := some "ride one" }

/-- Day 2 of the cycling witness payload. -/
def exParsedRouteC2 : ParsedRoute :=
  { day := some 2, startPoint := some exRawPointB, endPoint := some exRawPointC,
    waypoints := some [], description := some "ride two" }

/-- The raw trip of the cycling witness payload. -/
def exParsedTripC : ParsedTrip :=
  { city := some "Tel Aviv, Israel", tripType := some "cycling", estimatedDays := some 2,
    routes := some [exParsedRouteC1, exParsedRouteC2], highlights := some [],
    equipment := some [], tips := some [] }

/-- A Groq environment producing the cycling witness payload. -/
def exGroqEnvC : GroqEnv :=
  { llm := fun _ _ _ => some "\x7bok\x7d", jsParse := fun _ => some exParsedTripC }

/-- The processed ORS route of the cycling witness scenario. -/
def exOrsC : OrsRoute :=
  { distance := 20, duration := 60, coordinates := [⟨2, 48⟩, ⟨3, 48⟩],
    geometry := ⟨[⟨2, 48⟩, ⟨3, 48⟩]⟩, summary := ⟨0, 0⟩, instructions := [] }

/-- A network oracle answering every call with `exOrsC`. -/
def exNetC : Net := fun _ _ _ => .success exOrsC

/-- Day 1 of the resolved cycling witness trip. -/
def exRouteC1 : Route :=
  { day := 1, distance := 20, duration := 60, startPoint := exPointA,
    endPoint := exPointB, waypoints := [], coordinates := [⟨2, 48⟩, ⟨3, 48⟩],
    geometry := ⟨[⟨2, 48⟩, ⟨3, 48⟩]⟩, description := "ride one",
    elevation := ⟨0, 0⟩, instructions := [] }

/-- Day 2 of the resolved cycling witness trip. -/
def exRouteC2 : Route :=
  { day := 2, distance := 20, duration := 60, startPoint := exPointB,
    endPoint := exPointC, waypoints := [], coordinates := [⟨2, 48⟩, ⟨3, 48⟩],
    geometry := ⟨[⟨2, 48⟩, ⟨3, 48⟩]⟩, description := "ride two",
    elevation := ⟨0, 0⟩, instructions := [] }

/-- The trip the cycling witness run produces. -/
def exTripC : Trip :=
  { destination := "Tel Aviv, Israel", city := "Tel Aviv, Israel", tripType := "cycling",
    totalDistance := 40, estimatedDuration := 120, estimatedDays := 2,
    routes := [exRouteC1, exRouteC2], highlights := [], difficulty := "easy",
    equipment := [], tips := [], countryImage := "img" }

/-- A point is always the same location as itself. -/
theorem isSamePointB_refl (p : Point) : isSamePointB p p = true := by
  simp [isSamePointB, jsMathAbs, POINT_TOLERANCE]

/-- Extending the scanned text on the right preserves a prefix match. -/
theorem listStartsWith_append (s m pat : List Char)
    (h : listStartsWith s pat = true) : listStartsWith (s ++ m) pat = true := by
  induction pat generalizing s with
  | nil => simp [listStartsWith]
  | cons p ps ih =>
    cases s with
    | nil => simp [listStartsWith] at h
    | cons c cs =>
      simp only [List.cons_append, listStartsWith, Bool.and_eq_true] at h ⊢
      exact ⟨h.1, ih cs h.2⟩

/-- Extending the scanned text on the right preserves containment. -/
theorem listContains_append (s m pat : List Char)
    (h : listContains s pat = true) : listContains (s ++ m) pat = true := by
  induction s with
  | nil =>
    cases pat with
    | nil => cases m <;> simp [listContains, listStartsWith]
    | cons p ps => simp [listContains, listStartsWith] at h
  | cons c cs ih =>
    simp only [listContains, Bool.or_eq_true] at h
    rcases h with h | h
    · simp only [List.cons_append, listContains, Bool.or_eq_true]
      exact Or.inl (listStartsWith_append _ _ _ h)
    · simp only [List.cons_append, listContains, Bool.or_eq_true]
      exact Or.inr (ih h)

/-- A substring of `s` is still a substring of `s ++ m`. -/
theorem strIncludes_append (s m pat : String)
    (h : strIncludes s pat = true) : strIncludes (s ++ m) pat = true := by
  simpa [strIncludes, String.data_append] using
    listContains_append s.data m.data pat.data (by simpa [strIncludes] using h)

/-- Every message produced by the 2010 classification of `fetchRoute`
contains the `'routable point'` marker the repair path looks for. -/
theorem unreachableMsg_includes (m : String) :
    strIncludes (unreachableMsgHead ++ m) "routable point" = true :=
  strIncludes_append unreachableMsgHead m "routable point" (by decide)

/-- When the prevalidation passes, `fetchRoute` makes exactly one network
call, whatever the outcome. -/
theorem fetchRoute_count (net : Net) (n : ℕ) (coords : List Coord) (profile : String)
    (h : prevalidateE coords = .ok ()) : (fetchRoute net n coords profile).2 = n + 1 := by
  unfold fetchRoute
  rw [h]
  cases net n coords profile with
  | success r => by_cases hg : r.geometry.coordinates.length < 2 <;> simp [hg]
  | httpFail st c msg => cases c <;> simp
  | badResponse msg => simp

/-- Two pointwise-equal predicates find the same first element. -/
theorem list_find?_congr {α : Type} (l : List α) (p q : α → Bool)
    (h : ∀ a ∈ l, p a = q a) : l.find? p = l.find? q := by
  induction l with
  | nil => rfl
  | cons a as ih =>
    have ha := h a (List.mem_cons_self a as)
    by_cases hp : p a = true
    · rw [List.find?_cons_of_pos _ hp, List.find?_cons_of_pos _ (ha ▸ hp)]
    · rw [List.find?_cons_of_neg _ (by simpa using hp),
        List.find?_cons_of_neg _ (by simp [← ha]; simpa using hp)]
      exact ih (fun x hx => h x (List.mem_cons_of_mem _ hx))

/-- Rounding to two decimals moves a rational by at most 1/100. -/
theorem abs_roundTo2_sub_le (x : ℚ) : |roundTo2 x - x| ≤ 1 / 100 := by
  have h : |((round (x * 100) : ℤ) : ℚ) - x * 100| ≤ 1 / 2 := by
    rw [abs_sub_comm]; exact abs_sub_round (x * 100)
  have hx : roundTo2 x - x = ((round (x * 100) : ℚ) - x * 100) / 100 := by
    unfold roundTo2; ring
  rw [hx, abs_div]
  have h100 : |(100 : ℚ)| = 100 := by norm_num
  rw [h100]
  linarith

/-- After the continuity pass, every adjacent pair of days is continuous. -/
theorem forceContinuityAux_contiguous (rest : List Route) :
    ∀ prev, contiguousB (prev :: forceContinuityAux prev rest) = true := by
  induction rest with
  | nil => intro prev; rfl
  | cons r2 t ih =>
    intro prev
    by_cases h : isSamePointB prev.endPoint r2.startPoint = true
    · simp only [forceContinuityAux, h, if_pos, contiguousB, Bool.and_eq_true]
      exact ⟨trivial, ih r2⟩
    · simp only [forceContinuityAux, h, if_neg, if_false, contiguousB, Bool.and_eq_true]
      refine ⟨isSamePointB_refl _, ?_⟩
      exact ih { r2 with startPoint := prev.endPoint }

/-- The continuity pass establishes adjacent-day continuity. -/
theorem forceContinuity_contiguous (rs : List Route) :
    contiguousB (forceContinuity rs) = true := by
  cases rs with
  | nil => rfl
  | cons r rest => exact forceContinuityAux_contiguous rest r

/-- Shape of `replaceLast` on a non-empty list: the head keeps its start
point when `f` preserves start points, and the last element becomes `f` of
the old last element. -/
theorem replaceLast_shape (f : Route → Route) (hf : ∀ x, (f x).startPoint = x.startPoint) :
    ∀ (rest : List Route) (a : Route), ∃ hd tl,
      replaceLast f (a :: rest) = hd :: tl ∧
      hd.startPoint = a.startPoint ∧
      tl.getLastD hd = f (rest.getLastD a) := by
  intro rest
  induction rest with
  | nil =>
    intro a
    refine ⟨f a, [], ?_, ?_, ?_⟩
    · rfl
    · exact hf a
    · simp [List.getLastD]
  | cons b t ih =>
    intro a
    obtain ⟨hd, tl, heq, hstart, hlast⟩ := ih b
    refine ⟨a, hd :: tl, ?_, rfl, ?_⟩
    · show a :: replaceLast f (b :: t) = a :: hd :: tl
      rw [heq]
    · show (hd :: tl).getLastD a = f ((b :: t).getLastD a)
      rw [List.getLastD_cons, List.getLastD_cons]
      exact hlast

/-- `replaceLast` with a start-point-preserving function keeps the
adjacent-day continuity of the list. -/
theorem replaceLast_contiguous (f : Route → Route)
    (hf : ∀ x, (f x).startPoint = x.startPoint) :
    ∀ (rest : List Route) (a : Route), contiguousB (a :: rest) = true →
      contiguousB (replaceLast f (a :: rest)) = true := by
  intro rest
  induction rest with
  | nil => intro a _; rfl
  | cons b t ih =>
    intro a h
    simp only [contiguousB, Bool.and_eq_true] at h
    obtain ⟨hd, tl, heq, hstart, _⟩ := replaceLast_shape f hf t b
    show contiguousB (a :: replaceLast f (b :: t)) = true
    rw [heq]
    have htail : contiguousB (hd :: tl) = true := by
      rw [← heq]; exact ih b h.2
    cases tl with
    | nil => simp [contiguousB, hstart, h.1]
    | cons u us =>
      simp only [contiguousB, Bool.and_eq_true] at htail ⊢
      exact ⟨by rw [hstart]; exact h.1, htail⟩

/-- A successful `closeLoop` preserves continuity and establishes the
overall loop closure. -/
theorem closeLoop_ok (net : Net) (city : String) (rs out : List Route) (n n1 : ℕ)
    (hrun : closeLoop net city rs n = (.ok out, n1))
    (hcont : contiguousB rs = true) :
    contiguousB out = true ∧ loopClosedB out = true := by
  cases rs with
  | nil => simp [closeLoop] at hrun
  | cons firstRoute rest =>
    simp only [closeLoop] at hrun
    split at hrun
    · rename_i hc
      simp only [Prod.mk.injEq, Except.ok.injEq] at hrun
      obtain ⟨hout, _⟩ := hrun
      subst hout
      refine ⟨hcont, ?_⟩
      show isSamePointB firstRoute.startPoint (rest.getLastD firstRoute).endPoint = true
      exact hc
    · rename_i hc
      split at hrun
      · simp at hrun
      · rename_i returnOrs nf heq
        simp only [Prod.mk.injEq, Except.ok.injEq] at hrun
        obtain ⟨hout, _⟩ := hrun
        subst hout
        have hf : ∀ x, ((fun lastR => { lastR with
            endPoint := firstRoute.startPoint, distance := returnOrs.distance,
            duration := returnOrs.duration, coordinates := returnOrs.coordinates,
            geometry := returnOrs.geometry, elevation := returnOrs.summary,
            instructions := returnOrs.instructions } : Route → Route) x).startPoint
              = x.startPoint :=
          fun x => rfl
        constructor
        · exact replaceLast_contiguous _ hf rest firstRoute hcont
        · obtain ⟨hd, tl, heq2, hstart, hlast⟩ := replaceLast_shape _ hf rest firstRoute
          rw [heq2]
          show isSamePointB hd.startPoint (tl.getLastD hd).endPoint = true
          rw [hstart, hlast]
          exact isSamePointB_refl _

/-- A successful `processTrekRoutes` output is continuous and closed: the
continuity pass establishes continuity and the loop-closure pass closes the
loop while preserving continuity. -/
theorem processTrekRoutes_geometry (net : Net) (city : String)
    (routes out : List Route) (n n1 : ℕ)
    (hrun : processTrekRoutes net city routes n = (.ok out, n1)) :
    trekGeometryOkB out = true := by
  unfold processTrekRoutes at hrun
  split at hrun
  · simp at hrun
  · rename_i rs1 nA heq
    have h := closeLoop_ok net city (forceContinuity rs1) out nA n1 hrun
      (forceContinuity_contiguous rs1)
    simp [trekGeometryOkB, h.1, h.2]

set_option maxHeartbeats 1000000 in
/-- The trip type of a validated Groq payload always echoes the requested
trip type (`parseAndValidateJSON` rejects any other). -/
theorem parseAndValidateJSON_echo (jsParse : String → Option ParsedTrip)
    (s ty : String) (d : LlmData)
    (h : parseAndValidateJSON jsParse s ty = .ok d) : d.tripType = ty := by
  unfold parseAndValidateJSON at h
  repeat (any_goals split at h)
  any_goals (exfalso; simp at h; done)
  all_goals (simp only [Except.ok.injEq] at h; subst h; simp_all only [ne_eq, not_not])

/-- A successful attempt-loop iteration returns a payload echoing the
requested trip type. -/
theorem attemptLoop_echo (gro : GroqEnv) (dest ty : String) :
    ∀ (remaining attempt : ℕ) (lastError : Option JsError) (n n' : ℕ) (d : LlmData),
      attemptLoop gro dest ty remaining attempt lastError n = (.ok d, n') →
      d.tripType = ty := by
  intro remaining
  induction remaining with
  | zero => intro attempt lastError n n' d h; simp [attemptLoop] at h
  | succ r ih =>
    intro attempt lastError n n' d h
    unfold attemptLoop at h
    split at h
    · rename_i parsed n1 heq
      simp only [Prod.mk.injEq, Except.ok.injEq] at h
      obtain ⟨hd, _⟩ := h
      subst hd
      unfold oneAttempt at heq
      split at heq
      · simp at heq
      · split at heq
        · simp at heq
        · rename_i response n2 hllm
          simp only [Prod.mk.injEq] at heq
          exact parseAndValidateJSON_echo gro.jsParse response ty parsed heq.1
    · rename_i e n1 heq
      split at h
      · simp at h
      · exact ih (attempt + 1) (some e) n1 n' d h

/-- `generateRoutePoints` only succeeds with a payload echoing the
requested trip type. -/
theorem generateRoutePoints_echo (gro : GroqEnv) (dest ty : String)
    (n n' : ℕ) (d : LlmData)
    (h : generateRoutePoints gro dest ty n = (.ok d, n')) : d.tripType = ty :=
  attemptLoop_echo gro dest ty 3 1 none n n' d h

/-- Inversion of a successful `generateRoute` run: the Groq stage
succeeded, the trip echoes its payload's trip type and day count, the
totals are the rounded/exact sums over the final routes, the final
validation passed, and the final routes are the output of the trip-type
processing stage. -/
theorem generateRoute_inversion (gro : GroqEnv) (env : CoordEnv) (net : Net)
    (image : Except JsError String) (destination tripType : String)
    (n n' : ℕ) (trip : Trip)
    (h : generateRoute gro env net image destination tripType n = (.ok trip, n')) :
    ∃ d k, generateRoutePoints gro destination tripType 0 = (.ok d, k) ∧
      trip.tripType = d.tripType ∧
      trip.estimatedDays = d.estimatedDays ∧
      trip.totalDistance = roundTo2 ((trip.routes.map (fun r => r.distance)).sum) ∧
      trip.estimatedDuration = (trip.routes.map (fun r => r.duration)).sum ∧
      validateFinalTrip trip = .ok () ∧
      ((tripType = "trek" ∧
          ∃ rs n1 n2, processTrekRoutes net d.city rs n1 = (.ok trip.routes, n2)) ∨
       (tripType ≠ "trek" ∧ ∃ rs, processCyclingRoutes rs = .ok trip.routes)) := by
  unfold generateRoute at h
  split at h
  · simp at h
  · rename_i d k hgro
    refine ⟨d, k, hgro, ?_⟩
    split at h
    · simp at h
    · split at h
      · simp at h
      · split at h
        · simp at h
        · rename_i routes n1 hbuild
          split at h
          · simp at h
          · rename_i validated n2 hproc
            split at h
            · simp at h
            · rename_i countryImage
              dsimp only [] at h
              split at h
              · simp at h
              · rename_i u hval
                simp only [Prod.mk.injEq, Except.ok.injEq] at h
                obtain ⟨htrip, _⟩ := h
                subst htrip
                refine ⟨rfl, rfl, rfl, rfl, ?_, ?_⟩
                · cases u; exact hval
                · by_cases hty : (tripType == "trek") = true
                  · rw [if_pos hty] at hproc
                    exact Or.inl ⟨by simpa using hty, routes, n1, n2, hproc⟩
                  · rw [if_neg hty] at hproc
                    simp only [Prod.mk.injEq] at hproc
                    exact Or.inr ⟨by simpa using hty, routes, hproc.1⟩

/-- The concrete trek witness run of the pipeline. -/
theorem exTrekRun :
    generateRoute exGroqEnv exCoordEnv exNet (.ok "img") "Paris, France" "trek" 0 =
      (.ok exTrip, 1) := by decide

/-- The concrete cycling witness run of the pipeline. -/
theorem exCyclingRun :
    generateRoute exGroqEnvC exCoordEnv exNetC (.ok "img") "Tel Aviv, Israel" "cycling" 0 =
      (.ok exTripC, 2) := by decide

/-- C1: every trek trip the pipeline returns is continuous day to day and
closed into a loop, both up to the strict 0.001-degree tolerance: the
continuity pass of `processTrekRoutes` forces each day's start onto the
previous day's end, and the loop-closure pass forces the last day's end
onto the overall start. -/
theorem trek_trip_is_contiguous_loop (gro : GroqEnv) (env : CoordEnv) (net : Net)
    (image : Except JsError String) (destination tripType : String)
    (n n' : ℕ) (trip : Trip)
    (h : generateRoute gro env net image destination tripType n = (.ok trip, n'))
    (htrek : trip.tripType = "trek") :
    trekGeometryOkB trip.routes = true := by
  obtain ⟨d, k, hgro, hty, _, _, _, _, hdisj⟩ :=
    generateRoute_inversion gro env net image destination tripType n n' trip h
  have hecho := generateRoutePoints_echo gro destination tripType 0 k d hgro
  have hreq : tripType = "trek" := by rw [← hecho, ← hty]; exact htrek
  rcases hdisj with ⟨_, rs, n1, n2, hproc⟩ | ⟨hne, _⟩
  · exact processTrekRoutes_geometry net d.city rs trip.routes n1 n2 hproc
  · exact absurd hreq hne

/-- Witness for C1 at the concrete trek run. -/
theorem trek_trip_is_contiguous_loop_witness : trekGeometryOkB exTrip.routes = true :=
  trek_trip_is_contiguous_loop exGroqEnv exCoordEnv exNet (.ok "img")
    "Paris, France" "trek" 0 1 exTrip exTrekRun (by decide)

/-- C2: every trek trip the pipeline returns has as many routes as
estimated days, between 1 and 5 days, and every day's distance within
[5, 15] km — all enforced by `validateTrek` inside the final validation. -/
theorem trek_trip_invariants (gro : GroqEnv) (env : CoordEnv) (net : Net)
    (image : Except JsError String) (destination tripType : String)
    (n n' : ℕ) (trip : Trip)
    (h : generateRoute gro env net image destination tripType n = (.ok trip, n'))
    (htrek : trip.tripType = "trek") :
    trekInvariantsB trip = true := by
  obtain ⟨d, k, hgro, _, _, _, _, hval, _⟩ :=
    generateRoute_inversion gro env net image destination tripType n n' trip h
  unfold validateFinalTrip at hval
  rw [if_pos (by simp [htrek])] at hval
  have hb : validateTrekB trip = true := by
    by_contra hb
    rw [if_neg hb] at hval
    simp at hval
  simp only [validateTrekB, Bool.and_eq_true, List.all_eq_true] at hb
  simp only [trekInvariantsB, Bool.and_eq_true, List.all_eq_true]
  obtain ⟨⟨⟨⟨hA, hB⟩, hC⟩, hD⟩, hE⟩ := hb
  refine ⟨⟨⟨hD, hB⟩, hC⟩, ?_⟩
  intro r hr
  exact (hE r hr).1

/-- Witness for C2 at the concrete trek run. -/
theorem trek_trip_invariants_witness : trekInvariantsB exTrip = true :=
  trek_trip_invariants exGroqEnv exCoordEnv exNet (.ok "img")
    "Paris, France" "trek" 0 1 exTrip exTrekRun (by decide)

/-- C3: every cycling trip the pipeline returns has exactly two routes,
each day within [10, 60] km (the lower bound from `processCyclingRoutes`,
the upper bound from both gates), day-1 end meeting day-2 start
(`validateCycling` throws otherwise), and an overall start that differs
from the overall end (point-to-point, both gates). -/
theorem cycling_trip_shape (gro : GroqEnv) (env : CoordEnv) (net : Net)
    (image : Except JsError String) (destination tripType : String)
    (n n' : ℕ) (trip : Trip)
    (h : generateRoute gro env net image destination tripType n = (.ok trip, n'))
    (hcyc : trip.tripType = "cycling") :
    cyclingShapeB trip.routes = true := by
  obtain ⟨d, k, hgro, hty, _, _, _, hval, hdisj⟩ :=
    generateRoute_inversion gro env net image destination tripType n n' trip h
  have hecho := generateRoutePoints_echo gro destination tripType 0 k d hgro
  have hreq : tripType = "cycling" := by rw [← hecho, ← hty]; exact hcyc
  rcases hdisj with ⟨htk, _⟩ | ⟨_, rs, hproc⟩
  · rw [hreq] at htk; simp at htk
  · -- the continuity conjunct, from the final constraint validation
    unfold validateFinalTrip at hval
    rw [if_neg (by simp [hcyc])] at hval
    have hb : validateCyclingB trip = true := by
      by_contra hb
      rw [if_neg hb] at hval
      simp at hval
    -- the distance bounds and point-to-point shape, from processCyclingRoutes
    unfold processCyclingRoutes at hproc
    split at hproc
    · rename_i a b
      split at hproc
      · simp at hproc
      · split at hproc
        · simp at hproc
        · split at hproc
          · simp at hproc
          · rename_i hda hdb hpp
            simp only [Except.ok.injEq] at hproc
            rw [← hproc]
            simp only [validateCyclingB] at hb
            rw [← hproc] at hb
            simp only [Bool.and_eq_true] at hb
            obtain ⟨-, ⟨⟨-, hS⟩, hN⟩⟩ := hb
            simp only [Bool.or_eq_true, decide_eq_true_eq, not_or] at hda hdb
            push_neg at hda hdb
            simp only [cyclingShapeB, Bool.and_eq_true]
            refine ⟨⟨⟨⟨⟨?_, ?_⟩, ?_⟩, ?_⟩, ?_⟩, ?_⟩
            · exact decide_eq_true hda.1
            · exact decide_eq_true hda.2
            · exact decide_eq_true hdb.1
            · exact decide_eq_true hdb.2
            · exact hS
            · exact hN
    · simp at hproc

/-- Witness for C3 at the concrete cycling run. -/
theorem cycling_trip_shape_witness : cyclingShapeB exTripC.routes = true :=
  cycling_trip_shape exGroqEnvC exCoordEnv exNetC (.ok "img")
    "Tel Aviv, Israel" "cycling" 0 2 exTripC exCyclingRun (by decide)

/-- C8: the total distance of every trip the pipeline returns is the sum
of its per-day distances rounded to two decimals — hence within 0.01 of
the exact sum — and the total duration is exactly the sum of the per-day
durations. -/
theorem trip_totals_are_sums (gro : GroqEnv) (env : CoordEnv) (net : Net)
    (image : Except JsError String) (destination tripType : String)
    (n n' : ℕ) (trip : Trip)
    (h : generateRoute gro env net image destination tripType n = (.ok trip, n')) :
    trip.totalDistance = roundTo2 ((trip.routes.map (fun r => r.distance)).sum) ∧
    |trip.totalDistance - (trip.routes.map (fun r => r.distance)).sum| ≤ 1 / 100 ∧
    trip.estimatedDuration = (trip.routes.map (fun r => r.duration)).sum := by
  obtain ⟨d, k, _, _, _, hdist, hdur, _, _⟩ :=
    generateRoute_inversion gro env net image destination tripType n n' trip h
  refine ⟨hdist, ?_, hdur⟩
  rw [hdist]
  exact abs_roundTo2_sub_le _

/-- Witness for C8 at the concrete trek run. -/
theorem trip_totals_are_sums_witness :
    exTrip.totalDistance = roundTo2 ((exTrip.routes.map (fun r => r.distance)).sum) ∧
    |exTrip.totalDistance - (exTrip.routes.map (fun r => r.distance)).sum| ≤ 1 / 100 ∧
    exTrip.estimatedDuration = (exTrip.routes.map (fun r => r.duration)).sum :=
  trip_totals_are_sums exGroqEnv exCoordEnv exNet (.ok "img")
    "Paris, France" "trek" 0 1 exTrip exTrekRun

/-- C4 counterexample: with a routing probe that accepts no candidate and a
geocoder that is down, `findRoutableCoordinates` throws the
external-service error instead of returning a point — so the operation is
not failure-free as claimed. -/
theorem resolver_never_fails_cex :
    findRoutableCoordinates exCoordEnvDown exCoordA "Paris, France" "foot-walking" =
      .error ⟨externalServiceMsg, some EXTERNAL_SERVICE_ERROR⟩ := by decide

/-- C4 amended: `findRoutableCoordinates` always returns a point provided
the city geocoding succeeds — the first accepted ring candidate, or the
geocoded centroid as last resort; only a geocoder failure (after every
probe was rejected) makes it throw. -/
theorem resolver_total_when_geocode_answers (env : CoordEnv) (orig : Coord)
    (city profile : String) (c : Coord) (hgeo : env.geocode city = some c) :
    ∃ p, findRoutableCoordinates env orig city profile = .ok p := by
  unfold findRoutableCoordinates
  dsimp only []
  cases hfind : (searchRadii.flatMap
      (fun radius => generateNearbyCoordinates env orig.lat orig.lng radius)).find?
      (fun candidate => env.probe "foot-walking" [candidate, candidate]) with
  | some candidate => exact ⟨candidate, rfl⟩
  | none =>
    unfold geocodeCityCenter
    rw [hgeo]
    exact ⟨c, rfl⟩

/-- Witness for the amended C4: all probes rejected, geocoder answering. -/
theorem resolver_total_when_geocode_answers_witness :
    ∃ p, findRoutableCoordinates exCoordEnvFallback exCoordA "Tel Aviv, Israel"
      "cycling-regular" = .ok p :=
  resolver_total_when_geocode_answers exCoordEnvFallback exCoordA
    "Tel Aviv, Israel" "cycling-regular" exCoordA rfl

/-- C6 counterexample: with a routing probe that accepts everything — in
particular the original coordinate itself — `findRoutableCoordinates`
still returns the first ring candidate, 0.001 degrees north of the
original, not the original coordinate. -/
theorem resolver_not_identity_cex :
    exCoordEnv.probe "foot-walking" [exCoordA, exCoordA] = true ∧
    findRoutableCoordinates exCoordEnv exCoordA "Paris, France" "foot-walking" =
      .ok ⟨2, 48 + 1 / 1000⟩ ∧
    (⟨2, 48 + 1 / 1000⟩ : Coord) ≠ exCoordA := by decide

/-- C6 amended: the original point is never probed; when the routing
service accepts the first ring candidate (the point 0.001 degrees north of
the original, probed first), `findRoutableCoordinates` returns that offset
candidate, which always differs from the original.  The trig hypotheses
pin the model of `Math.cos`/`Math.sin` at angle 0, where the float
functions are exact. -/
theorem resolver_returns_offset_candidate (env : CoordEnv) (orig : Coord)
    (city profile : String)
    (hcos : env.cosQ 0 = 1) (hsin : env.sinQ 0 = 0)
    (hprobe : env.probe "foot-walking"
      [⟨orig.lng, orig.lat + 1 / 1000⟩, ⟨orig.lng, orig.lat + 1 / 1000⟩] = true) :
    findRoutableCoordinates env orig city profile = .ok ⟨orig.lng, orig.lat + 1 / 1000⟩ ∧
    (⟨orig.lng, orig.lat + 1 / 1000⟩ : Coord) ≠ orig := by
  constructor
  · unfold findRoutableCoordinates
    dsimp only []
    have h8 : List.range 8 = [0, 1, 2, 3, 4, 5, 6, 7] := by decide
    have hangle : ((((0 : ℕ) : ℚ)) * 2 * jsPI) / 8 = 0 := by norm_num
    have hf0 : Coord.mk (orig.lng + 1 / 1000 * env.sinQ (((((0 : ℕ) : ℚ)) * 2 * jsPI) / 8))
        (orig.lat + 1 / 1000 * env.cosQ (((((0 : ℕ) : ℚ)) * 2 * jsPI) / 8)) =
        ⟨orig.lng, orig.lat + 1 / 1000⟩ := by
      rw [hangle, hsin, hcos]
      congr 1
      ring
    simp only [searchRadii, generateNearbyCoordinates, h8, List.flatMap_cons,
      List.map_cons, List.cons_append]
    rw [hf0]
    rw [@List.find?_cons_of_pos Coord
      (fun candidate => env.probe "foot-walking" [candidate, candidate])
      ⟨orig.lng, orig.lat + 1 / 1000⟩ _ hprobe]
  · intro h
    have := congrArg Coord.lat h
    simp only at this
    linarith

/-- Witness for the amended C6: the all-accepting probe, under the cycling
profile. -/
theorem resolver_returns_offset_candidate_witness :
    findRoutableCoordinates exCoordEnv exCoordA "Paris, France" "cycling-regular" =
      .ok ⟨2, 48 + 1 / 1000⟩ ∧
    (⟨2, 48 + 1 / 1000⟩ : Coord) ≠ exCoordA :=
  resolver_returns_offset_candidate exCoordEnv exCoordA "Paris, France"
    "cycling-regular" rfl rfl rfl

/-- C9: the result of `findRoutableCoordinates` depends only on how the
routing service answers `foot-walking` candidate-to-candidate probes (and
on the trig model and geocoder) — the `travelProfile` argument is ignored
entirely, so cycling repairs are decided against the pedestrian network. -/
theorem resolver_ignores_travel_profile (e1 e2 : CoordEnv) (orig : Coord)
    (city p1 p2 : String)
    (hcos : e1.cosQ = e2.cosQ) (hsin : e1.sinQ = e2.sinQ)
    (hgeo : e1.geocode = e2.geocode)
    (hprobe : ∀ c : Coord, e1.probe "foot-walking" [c, c] = e2.probe "foot-walking" [c, c]) :
    findRoutableCoordinates e1 orig city p1 = findRoutableCoordinates e2 orig city p2 := by
  unfold findRoutableCoordinates
  dsimp only []
  have hcand : searchRadii.flatMap
      (fun radius => generateNearbyCoordinates e1 orig.lat orig.lng radius) =
      searchRadii.flatMap
      (fun radius => generateNearbyCoordinates e2 orig.lat orig.lng radius) := by
    simp [generateNearbyCoordinates, hcos, hsin]
  rw [hcand]
  rw [list_find?_congr _ _ _ (fun a _ => hprobe a)]
  cases (searchRadii.flatMap
      (fun radius => generateNearbyCoordinates e2 orig.lat orig.lng radius)).find?
      (fun candidate => e2.probe "foot-walking" [candidate, candidate]) with
  | some candidate => rfl
  | none =>
    unfold geocodeCityCenter
    rw [hgeo]

/-- Witness for C9: the same environment probed under the cycling and the
walking profile returns the same result. -/
theorem resolver_ignores_travel_profile_witness :
    findRoutableCoordinates exCoordEnvFallback exCoordA "Paris, France" "cycling-regular" =
      findRoutableCoordinates exCoordEnvFallback exCoordA "Paris, France" "foot-walking" :=
  resolver_ignores_travel_profile exCoordEnvFallback exCoordEnvFallback exCoordA
    "Paris, France" "cycling-regular" "foot-walking" rfl rfl rfl (fun _ => rfl)

/-- Longitudes beyond 140 degrees in absolute value are classified as
Pacific water regardless of latitude. -/
theorem isLikelyOnLand_false_of_far_lng (lat lng : ℚ) (h : jsMathAbs lng > 140) :
    isLikelyOnLand lat lng = false := by
  have h1 : decide (jsMathAbs lng < 1) = false := by
    simp only [decide_eq_false_iff_not, not_lt]
    linarith
  have h2 : (decide (lng < -100) || decide (lng > 120)) = true := by
    unfold jsMathAbs at h
    split_ifs at h with hneg
    · simp only [Bool.or_eq_true, decide_eq_true_eq]
      left; linarith
    · simp only [Bool.or_eq_true, decide_eq_true_eq]
      right; linarith
  have h3 : decide (jsMathAbs lng > 140) = true := by simpa using h
  simp [isLikelyOnLand, isInPacificOcean, h1, h2, h3]

/-- A list containing a coordinate the land heuristic rejects fails the
land prevalidation. -/
theorem validateLand_error_of_mem (coords : List Coord) (c : Coord)
    (hc : c ∈ coords) (h : isLikelyOnLand c.lat c.lng = false) :
    ∃ e, validateLandCoordinatesE coords = .error e := by
  induction coords with
  | nil => cases hc
  | cons d rest ih =>
    by_cases hd : isLikelyOnLand d.lat d.lng = true
    · rcases List.mem_cons.mp hc with hcd | hmem
      · subst hcd; rw [hd] at h; cases h
      · obtain ⟨e, he⟩ := ih hmem
        exact ⟨e, by simp [validateLandCoordinatesE, hd, he]⟩
    · exact ⟨⟨"appears to be in water. Please use coordinates on land with road/path access.", none⟩,
        by simp [validateLandCoordinatesE, Bool.eq_false_iff.mpr hd]⟩

/-- C10: the land pre-filter classifies every coordinate with |lng| > 140
as water regardless of latitude, likewise every coordinate with |lat| < 1
and |lng| < 1, and consequently `fetchRoute` on any point list containing
such a coordinate fails without consuming a single network call. -/
theorem pacific_filter_blocks_before_network :
    (∀ lat lng : ℚ, jsMathAbs lng > 140 → isLikelyOnLand lat lng = false) ∧
    (∀ lat lng : ℚ, jsMathAbs lat < 1 → jsMathAbs lng < 1 →
      isLikelyOnLand lat lng = false) ∧
    (∀ (net : Net) (n : ℕ) (coords : List Coord) (profile : String),
      (∃ c ∈ coords, jsMathAbs c.lng > 140) →
      isErrB (fetchRoute net n coords profile).1 = true ∧
      (fetchRoute net n coords profile).2 = n) := by
  refine ⟨isLikelyOnLand_false_of_far_lng, ?_, ?_⟩
  · intro lat lng h1 h2
    simp [isLikelyOnLand, h1, h2]
  · intro net n coords profile ⟨c, hc, hgt⟩
    have hpre : ∃ e, prevalidateE coords = .error e := by
      unfold prevalidateE
      by_cases hlen : coords.length < 2
      · rw [if_pos hlen]; exact ⟨_, rfl⟩
      · rw [if_neg hlen]
        cases hvc : validateCoordinatesE coords with
        | error e => exact ⟨e, rfl⟩
        | ok u =>
          obtain ⟨e, he⟩ := validateLand_error_of_mem coords c hc
            (isLikelyOnLand_false_of_far_lng c.lat c.lng hgt)
          exact ⟨e, he⟩
    obtain ⟨e, he⟩ := hpre
    unfold fetchRoute
    rw [he]
    exact ⟨rfl, rfl⟩

/-- Witness for C10: an on-land coordinate in eastern Hokkaido, Japan
(latitude 43, longitude 143) is classified as water, and a route request
containing it fails with the network untouched. -/
theorem pacific_filter_blocks_before_network_witness :
    isLikelyOnLand 43 143 = false ∧
    isErrB (fetchRoute exNet 0 [⟨143, 43⟩, ⟨142, 43⟩] "foot-walking").1 = true ∧
    (fetchRoute exNet 0 [⟨143, 43⟩, ⟨142, 43⟩] "foot-walking").2 = 0 := by
  have h := pacific_filter_blocks_before_network
  refine ⟨h.1 43 143 (by decide), ?_, ?_⟩
  · exact (h.2.2 exNet 0 [⟨143, 43⟩, ⟨142, 43⟩] "foot-walking"
      ⟨⟨143, 43⟩, List.mem_cons_self _ _, by decide⟩).1
  · exact (h.2.2 exNet 0 [⟨143, 43⟩, ⟨142, 43⟩] "foot-walking"
      ⟨⟨143, 43⟩, List.mem_cons_self _ _, by decide⟩).2

/-- C5: when routing a day fails with the non-routable-point
classification, `buildDay` fixes every point through the coordinate
resolver and retries the routing call exactly once with those corrected
points; if that single retry also fails — for any reason — the day fails
with `TRIP_GENERATION_FAILED` after exactly two routing calls, whatever
the network would answer later. -/
theorem routing_repair_single_retry (env : CoordEnv) (net : Net) (n : ℕ)
    (rd : LlmRoute) (profile cityName : String) (st : ℕ) (msg : String)
    (fixed : List Coord)
    (hpre : prevalidateE (routeCoords rd) = .ok ())
    (hnet : net n (routeCoords rd) profile = .httpFail st true msg)
    (hfix : fixNonRoutableCoordinates env (routeCoords rd) cityName profile = .ok fixed)
    (hpre2 : prevalidateE fixed = .ok ())
    (hfail : isErrB (fetchRoute net (n + 1) fixed profile).1 = true) :
    buildDay env net n rd profile cityName =
      (.error ⟨tripGenerationFailedMsg, some TRIP_GENERATION_FAILED⟩, n + 2) := by
  have h1 : fetchRoute net n (routeCoords rd) profile =
      (.error ⟨unreachableMsgHead ++ msg, some VALIDATION_ERROR⟩, n + 1) := by
    unfold fetchRoute
    rw [hpre, hnet]
  have hcount : (fetchRoute net (n + 1) fixed profile).2 = n + 1 + 1 :=
    fetchRoute_count net (n + 1) fixed profile hpre2
  unfold buildDay
  dsimp only []
  rw [h1]
  dsimp only []
  rw [if_pos (unreachableMsg_includes msg)]
  rw [hfix]
  dsimp only []
  cases hf : fetchRoute net (n + 1) fixed profile with
  | mk res n2 =>
    rw [hf] at hfail hcount
    cases res with
    | ok r => simp [isErrB] at hfail
    | error e2 =>
      simp only [] at hcount
      subst hcount
      rfl

/-- Witness for C5: first routing call rejected with code 2010, the repair
resolving both points to the first ring candidate, and the retry failing
with a server error: the day ends in `TRIP_GENERATION_FAILED` after
exactly two routing calls. -/
theorem routing_repair_single_retry_witness :
    buildDay exCoordEnv exNet5 0 exLlmRoute "foot-walking" "Paris, France" =
      (.error ⟨tripGenerationFailedMsg, some TRIP_GENERATION_FAILED⟩, 2) :=
  routing_repair_single_retry exCoordEnv exNet5 0 exLlmRoute "foot-walking"
    "Paris, France" 404 "radius exceeded" [⟨2, 48 + 1 / 1000⟩, ⟨2, 48 + 1 / 1000⟩]
    (by decide) (by decide) (by decide) (by decide) (by decide)

/-- C7 (bug): on every attempt with a recorded previous error — that is,
every attempt numbered 2 or higher — `buildRoutePrompt` calls `.includes`
on the `Error` object and throws a `TypeError` before any prompt is built,
so the strengthened instruction and the routing guidance never reach the
text-generation service; after a single failing first attempt the whole
generation fails having made exactly one completion call. -/
theorem retry_prompt_crashes_before_llm :
    (∀ (destination tripType : String) (e : JsError),
      buildRoutePrompt destination tripType (some e) =
        .error ⟨"previousError.includes is not a function", none⟩) ∧
    generateRoutePoints exGroqEnvProse "Paris, France" "trek" 0 =
      (.error ⟨"Failed to generate valid route after 3 attempts: previousError.includes is not a function",
               some TRIP_GENERATION_FAILED⟩, 1) := by
  constructor
  · intro destination tripType e
    rfl
  · decide
